import Mathlib

/-!
Shallow embedding of the toolset discovery, identity and persistence engine
of the `nuke-toolsets` repository.

The Python modules `toolsets/toolset.py` (entities and factory),
`toolsets/loader.py` (scanning and querying) and `toolsets/saver.py`
(persistence writers) are translated into executable Lean definitions.

Modelling conventions:
- A Python string is a Lean `String`; Python string operations (`strip`,
  `lower`, `in`, `split`, `endswith`, ...) are re-implemented on `String.data`
  so every definition evaluates inside the kernel.
- The filesystem parts an operation touches are passed explicitly: a toolset
  folder is its directory listing (file names, and contents where read);
  the saver threads a small filesystem state and an event trace.
- A raised Python exception is `Except.error msg`; a function that cannot
  raise returns its value directly.
- The host application (`nuke`) is an explicit parameter: absent, or present
  with the observable answers the code queries; host calls become events.
-/

deriving instance DecidableEq for Except

namespace NukeToolsets

/-- Python `str.strip()` whitespace test (ASCII whitespace as in CPython). -/
def pySpace (c : Char) : Bool :=
  c = ' ' || c = '\t' || c = '\n' || c = '\r' || c = '\x0b' || c = '\x0c'

/-- Python `s.strip()`: drop leading and trailing whitespace. -/
def pyStrip (s : String) : String :=
  ⟨((s.data.dropWhile pySpace).reverse.dropWhile pySpace).reverse⟩

/-- Python `s.lower()` (ASCII case folding). -/
def pyLower (s : String) : String := ⟨s.data.map Char.toLower⟩

/-- Contiguous-sublist test on character lists (Python `needle in hay`). -/
def subChars (needle : List Char) : List Char → Bool
  | [] => needle.isEmpty
  | c :: t => needle.isPrefixOf (c :: t) || subChars needle t

/-- Python substring test `needle in hay`. -/
def subStr (needle hay : String) : Bool := subChars needle.data hay.data

/-- Python lexicographic `≤` on strings (by code point). -/
def lexLe : List Char → List Char → Bool
  | [], _ => true
  | _ :: _, [] => false
  | a :: as, b :: bs => if a = b then lexLe as bs else decide (a.toNat < b.toNat)

/-- `os.path.join` for one component (POSIX separator). -/
def pathJoin (a b : String) : String := a ++ "/" ++ b

/-- Python `", ".join(...)`-style concatenation with a separator. -/
def joinSep (sep : String) : List String → String
  | [] => ""
  | [a] => a
  | a :: b :: rest => a ++ sep ++ joinSep sep (b :: rest)

/-- Python `s.split(",")` on a character list (keeps empty fields). -/
def splitComma : List Char → List (List Char)
  | [] => [[]]
  | c :: t =>
    match splitComma t with
    | h :: r => if c = ',' then [] :: h :: r else (c :: h) :: r
    | [] => [[c]]

/-- `os.path.splitext` on a bare file name: split off the extension at the
last dot, unless every character before that dot is itself a dot. -/
def splitExt (s : String) : String × String :=
  let cs := s.data
  match cs.reverse.findIdx? (fun c => c = '.') with
  | none => (s, "")
  | some i =>
    let p := cs.length - 1 - i
    if (cs.take p).any (fun c => !(c = '.')) then (⟨cs.take p⟩, ⟨cs.drop p⟩)
    else (s, "")

/-! ## Toolset entities and the factory (`toolsets/toolset.py`) -/

/-- The classified toolset entity: `ToolsetNK`, `ToolsetPY` or `ToolsetInvalid`
(with its `error_message`), each remembering its folder path. -/
inductive ToolsetE where
  | nk (root : String)
  | py (root : String)
  | invalid (root : String) (error_message : String)
deriving DecidableEq

/-- Error message of the both-payloads-present branch of `ToolsetFactory.create`. -/
def multiPayloadMsg : String :=
  "Multiple payload files found. Candidates: ['toolset.nk', 'toolset.py']. " ++
  "How to fix: keep only ONE payload file (delete/rename the extra)."

/-- Error message of the case-mismatch branch of `ToolsetFactory.create`. -/
def caseMismatchMsg (details : String) : String :=
  "Payload filename case mismatch. Detected: " ++ details ++
  ". How to fix: rename the file(s) to exactly 'toolset.nk' or 'toolset.py' (lowercase). "

/-- Error message of the unsupported-extension branch of `ToolsetFactory.create`. -/
def unsupportedExtMsg (extension : String) : String :=
  "Unsupported toolset extension '" ++ extension ++ "'. Expected toolset.nk or toolset.py. " ++
  "How to fix: rename the payload to 'toolset.nk' or 'toolset.py' (or delete the file)."

/-- Error message of the no-payload branch of `ToolsetFactory.create`. -/
def noPayloadMsg : String :=
  "No toolset.nk or toolset.py found in this folder. " ++
  "How to fix: add a payload named 'toolset.nk' or 'toolset.py' (or delete the folder)."

/-- `ToolsetFactory.create(toolset_root)`: classify a directory into exactly one
entity variant from its listing. The folder is given as its existence flag
`is_dir` and directory listing `entries`; the `OSError` raised for a missing
directory is the `Except.error`. Follows `toolset.py` lines 372-459. -/
def ToolsetFactory.create (toolset_root : String) (is_dir : Bool) (entries : List String) :
    Except String ToolsetE :=
  if !is_dir then
    .error ("No such toolset root: " ++ toolset_root)
  else
    let nk_exists := entries.contains "toolset.nk"
    let py_exists := entries.contains "toolset.py"
    if nk_exists && py_exists then
      .ok (.invalid toolset_root multiPayloadMsg)
    else if nk_exists then
      .ok (.nk toolset_root)
    else if py_exists then
      .ok (.py toolset_root)
    else
      let lower_entries := entries.map pyLower
      let mismatches := ["toolset.nk", "toolset.py"].filterMap (fun expected =>
        if lower_entries.contains expected && !(entries.contains expected) then
          (entries.find? (fun e => pyLower e == expected)).map (fun actual => (actual, expected))
        else none)
      if !mismatches.isEmpty then
        let details := joinSep ", "
          (mismatches.map (fun ae => "'" ++ ae.1 ++ "' → '" ++ ae.2 ++ "'"))
        .ok (.invalid toolset_root (caseMismatchMsg details))
      else
        match entries.find? (fun e => (splitExt e).1 == "toolset") with
        | some file_name => .ok (.invalid toolset_root (unsupportedExtMsg (splitExt file_name).2))
        | none => .ok (.invalid toolset_root noPayloadMsg)

/-! ## Payload path resolution and source preview (`ToolsetBase`) -/

/-- A toolset folder as read by the entity helpers: its regular files with
their text contents, in listing order. -/
structure Folder where
  files : List (String × String)
deriving DecidableEq

/-- `os.path.isfile` inside the folder. -/
def Folder.hasFile (fd : Folder) (file_name : String) : Bool :=
  (fd.files.find? (fun f => f.1 == file_name)).isSome

/-- Text content of a file of the folder (empty if absent). -/
def Folder.fileText (fd : Folder) (file_name : String) : String :=
  ((fd.files.find? (fun f => f.1 == file_name)).map (fun f => f.2)).getD ""

/-- Name of the payload file `ToolsetBase.toolset_file` resolves to:
`toolset.nk` if it exists, else `toolset.py` if it exists, else none. -/
def toolsetFileName (fd : Folder) : Option String :=
  if fd.hasFile "toolset.nk" then some "toolset.nk"
  else if fd.hasFile "toolset.py" then some "toolset.py"
  else none

/-- `ToolsetBase.toolset_file`: absolute path of the resolved payload file,
or the empty string when neither payload exists (`toolset.py` lines 60-74). -/
def toolset_file (root : String) (fd : Folder) : String :=
  match toolsetFileName fd with
  | some n => pathJoin root n
  | none => ""

/-- `ToolsetBase.get_source`: contents of the resolved payload file, or the
empty string when there is none (`toolset.py` lines 130-146; the encoding
fallback of the except-branch reads the same bytes). -/
def get_source (fd : Folder) : String :=
  match toolsetFileName fd with
  | some n => fd.fileText n
  | none => ""

/-! ## Metadata sidecar (`ToolsetBase.load_meta` / `ToolsetBase.update_meta`)

The value stored in `data.json` is modelled structurally: the `json` library
round-trip (`json.load` after `json.dump`) is modelled as exact storage of the
dumped mapping, and a file whose text does not parse is the `corrupt` state. -/

/-- A metadata value: a JSON string, a JSON array of strings (the shapes
`update_meta` writes), or any other JSON value kept opaque as its text. -/
inductive MVal where
  | str (s : String)
  | strList (xs : List String)
  | otherJson (raw : String)
deriving DecidableEq

/-- A JSON object as an insertion-ordered key/value list (a Python dict). -/
abbrev MetaObj := List (String × MVal)

/-- Python `d[k]` lookup (keys are unique, so first match). -/
def objGet (o : MetaObj) (k : String) : Option MVal :=
  match o with
  | [] => none
  | kv :: rest => if kv.1 == k then some kv.2 else objGet rest k

/-- Python `d[k] = v`: replace the value in place if the key exists (keys of
a dict are unique, so the first occurrence is the occurrence), else append
the new key at the end (dict insertion order). -/
def objSet (o : MetaObj) (k : String) (v : MVal) : MetaObj :=
  match o with
  | [] => [(k, v)]
  | kv :: rest => if kv.1 == k then (k, v) :: rest else kv :: objSet rest k v

/-- State of the `data.json` file of one toolset folder. -/
inductive MetaFile where
  | missing
  | corrupt (err : String)
  | valid (o : MetaObj)
deriving DecidableEq

/-- In-memory metadata state of a `ToolsetBase` entity: `self.meta`,
`self.meta_missing`, `self.meta_load_error`. -/
structure MetaState where
  meta : MetaObj
  meta_missing : Bool
  meta_load_error : Option String
deriving DecidableEq

/-- `ToolsetBase.load_meta` (`toolset.py` lines 88-108), together with the
flags it sets: a missing file yields `{}` with `meta_missing` set; a corrupt
file yields `{}` with the recorded load error; neither raises. -/
def load_meta : MetaFile → MetaState
  | .missing => { meta := [], meta_missing := true, meta_load_error := none }
  | .corrupt e => { meta := [], meta_missing := false, meta_load_error := some e }
  | .valid o => { meta := o, meta_missing := false, meta_load_error := none }

/-- `ToolsetBase.update_meta(description, tags)` (`toolset.py` lines 110-127):
set the two keys on `self.meta`, dump the mapping to `data.json`, then clear
the missing/error flags. Returns the new entity state and the new file. -/
def update_meta (st : MetaState) (description : String) (tags : List String) :
    MetaState × MetaFile :=
  let m := objSet (objSet st.meta "description" (.str description)) "tags" (.strList tags)
  ({ meta := m, meta_missing := false, meta_load_error := some "" }, .valid m)

/-! ## Graph toolset execution (`ToolsetNK.execute`) -/

/-- An observable call into the host application. -/
inductive HostCall where
  | nodePaste (path : String)
  | nodeCopy (path : String)
deriving DecidableEq

/-- `ToolsetNK.execute` (`toolset.py` lines 176-181): when the host module is
present, paste the resolved payload path; when it is absent, do nothing.
The returned list is the host calls performed; `Except.error` would be a
raised exception. -/
def ToolsetNK.execute (host : Bool) (root : String) (fd : Folder) :
    Except String (List HostCall) :=
  if host then .ok [.nodePaste (toolset_file root fd)] else .ok []

/-- Whether a call returned normally (did not raise). -/
def exceptIsOk : Except ε α → Bool
  | .ok _ => true
  | .error _ => false

/-! ## Graph toolset summary (`ToolsetNK.get_summary_text`) -/

/-- The class name a payload line contributes, if any: the stripped line must
end in `{` and contain a space, and the token before the first `{`, stripped,
must be nonempty with an alphabetic first character
(`toolset.py` lines 227-233). -/
def nkHeaderClass (raw : String) : Option String :=
  let s := (pyStrip raw).data
  if ['\x7b'].isSuffixOf s && s.contains ' ' then
    let cls := pyStrip ⟨s.takeWhile (fun c => !(c = '\x7b'))⟩
    match cls.data with
    | c :: _ => if c.isAlpha then some cls else none
    | [] => none
  else none

/-- All class names collected from the payload lines, in order. -/
def nkClasses (lines : List String) : List String := lines.filterMap nkHeaderClass

/-- First-occurrence deduplication (iteration order of a Python `Counter`). -/
def firstDedupAux (seen : List String) : List String → List String
  | [] => []
  | a :: l =>
    if seen.contains a then firstDedupAux seen l
    else a :: firstDedupAux (a :: seen) l

/-- First-occurrence deduplication, starting from nothing seen. -/
def firstDedup (l : List String) : List String := firstDedupAux [] l

/-- `Counter(classes).items()`: each distinct class with its multiplicity. -/
def counterItems (classes : List String) : List (String × Nat) :=
  (firstDedup classes).map (fun c => (c, classes.count c))

/-- The sort key `(-count, name)` of `get_summary_text`, as a Boolean order:
descending count first, then ascending class name. -/
def summaryLe (a b : String × Nat) : Bool :=
  decide (b.2 < a.2) || (a.2 == b.2 && lexLe a.1.data b.1.data)

/-- Insert into a sorted list (kept before the first element it is `le` to). -/
def insertSorted (le : α → α → Bool) (a : α) : List α → List α
  | [] => [a]
  | b :: l => if le a b then a :: b :: l else b :: insertSorted le a l

/-- Sort by repeated insertion; with a total antisymmetric order this yields
the unique sorted arrangement, hence agrees with Python's stable `sorted`. -/
def sortByLe (le : α → α → Bool) : List α → List α
  | [] => []
  | a :: l => insertSorted le a (sortByLe le l)

/-- `sorted(counts.items(), key=lambda kv: (-kv[1], kv[0]))[:top_n]`:
the rows of the summary's Top Classes block. -/
def summaryItems (lines : List String) (top_n : Nat) : List (String × Nat) :=
  (sortByLe summaryLe (counterItems (nkClasses lines))).take top_n

/-- `total_nodes` of the summary: number of header lines counted. -/
def totalNodes (lines : List String) : Nat := (nkClasses lines).length

/-- `unique_classes` of the summary: number of distinct class names. -/
def uniqueClasses (lines : List String) : Nat := (counterItems (nkClasses lines)).length

/-- Python `s.ljust(w)`. -/
def pyLJust (s : String) (w : Nat) : String := ⟨s.data ++ List.replicate (w - s.data.length) ' '⟩

/-- Python `s.rjust(w)`. -/
def pyRJust (s : String) (w : Nat) : String := ⟨List.replicate (w - s.data.length) ' ' ++ s.data⟩

/-- `ToolsetNK.get_summary_text` (`toolset.py` lines 201-261) on the payload
text given as its lines: the rendered fixed-width text block. The unreadable-
file branch is not modelled; the lines are the file's contents. -/
def get_summary_text (name : String) (lines : List String) (top_n : Nat) : String :=
  let total_nodes := totalNodes lines
  let unique_classes := uniqueClasses lines
  let title := name
  let subtitle := Nat.repr total_nodes ++ " nodes · " ++ Nat.repr unique_classes ++ " classes"
  let width := max (max 47 title.data.length) (max subtitle.data.length ("Top Classes:").data.length)
  let sep : String := ⟨List.replicate width '─'⟩
  let items := summaryItems lines top_n
  let name_w := max 8 (min 22 (((items.map (fun kv => kv.1.data.length)).foldl max 0)))
  let count_w := max 2 (Nat.repr ((items.map (fun kv => kv.2)).foldl max 0)).data.length
  let rows :=
    if items.isEmpty then ["(no nodes found)"]
    else items.map (fun kv => pyLJust kv.1 name_w ++ "  " ++ pyRJust (Nat.repr kv.2) count_w)
  joinSep "\n" ([sep, title, subtitle, sep, "Top Classes:", ""] ++ rows ++ [sep])

/-! ## Script toolset execution (`ToolsetPY.execute`) -/

/-- The process-wide module cache `sys.modules`, keyed by module name;
module objects are abstracted to numeric identities. -/
abbrev ModCache := List (String × Nat)

/-- `sys.modules[k]` lookup. -/
def cacheLookup (k : String) : ModCache → Option Nat
  | [] => none
  | kv :: rest => if kv.1 == k then some kv.2 else cacheLookup k rest

/-- `sys.modules[k] = m`: replace in place (keys are unique) or append. -/
def cacheSet (k : String) (m : Nat) : ModCache → ModCache
  | [] => [(k, m)]
  | kv :: rest => if kv.1 == k then (k, m) :: rest else kv :: cacheSet k m rest

/-- `sys.modules.pop(k, None)`: remove the key if present. -/
def cachePop (k : String) : ModCache → ModCache
  | [] => []
  | kv :: rest => if kv.1 == k then cachePop k rest else kv :: cachePop k rest

/-- The sanitized module name `"toolset_" + safe_name` built from the toolset
name (`toolset.py` lines 293-296). -/
def uniqueModuleName (name : String) : String :=
  "toolset_" ++ ⟨name.data.map (fun c => if c.isAlpha || c.isDigit then c else '_')⟩

/-- How the loaded script behaves once registered: its top-level code and
entry point run to completion; or it exposes no callable top-level `execute`;
or its entry point (or top-level code) raises with some message. -/
inductive ScriptOutcome where
  | completes
  | noEntryPoint
  | raisesInside (msg : String)

/-- `ToolsetPY.execute` (`toolset.py` lines 291-328): build the spec, allocate
the module, register it in `sys.modules` under its unique name, run it, and
unconditionally pop the registration in the `finally` block. Returns the
raised exception (if any) and the final module cache. -/
def ToolsetPY.execute (name module_path : String) (spec_ok : Bool) (outcome : ScriptOutcome)
    (module : Nat) (modules : ModCache) : Except String Unit × ModCache :=
  let unique_name := uniqueModuleName name
  if !spec_ok then
    (.error ("Cannot build spec for toolset module: " ++ module_path), modules)
  else
    let registered := cacheSet unique_name module modules
    let result : Except String Unit :=
      match outcome with
      | .completes => .ok ()
      | .noEntryPoint =>
        .error ("Python toolset '" ++ name ++ "' must define a top-level execute() function.")
      | .raisesInside msg => .error msg
    (result, cachePop unique_name registered)

/-! ## Catalog scanning (`toolsets/loader.py`, `ToolsetsLoader.load`) -/

/-- One entry of a directory listing during the scan. -/
structure ScanEntry where
  name : String
  is_dir : Bool

/-- One entry of the root listing: a candidate user folder with its own
toolset-folder listing. -/
structure ScanUser where
  name : String
  is_dir : Bool
  toolsets : List ScanEntry

/-- `name.startswith(IGNORE)` with `IGNORE = (".", "_")` from `config.py`. -/
def startsWithIgnore (s : String) : Bool :=
  match s.data with
  | [] => false
  | c :: _ => c = '.' || c = '_'

/-- The skip rule of both loops of `ToolsetsLoader.load`: not a directory,
ignore-prefixed, or the platform junk name. -/
def skipEntry (name : String) (is_dir : Bool) : Bool :=
  !is_dir || startsWithIgnore name || name == ".DS_Store"

/-- Inner loop of `ToolsetsLoader.load` (`loader.py` lines 53-62) over one
user folder's listing. `create` is `ToolsetFactory.create` on the real
filesystem: `Except.error` is a hard exception raised during classification.
Each failure is recorded as a `(toolset_root, message)` pair and the folder
is skipped; each success appends the entity. -/
def loadUserFolders (create : String → Except String ToolsetE) (user_root : String) :
    List ScanEntry → List ToolsetE × List (String × String)
  | [] => ([], [])
  | e :: rest =>
    if skipEntry e.name e.is_dir then loadUserFolders create user_root rest
    else
      let toolset_root := pathJoin user_root e.name
      match create toolset_root with
      | .ok t =>
        let r := loadUserFolders create user_root rest
        (t :: r.1, r.2)
      | .error msg =>
        let r := loadUserFolders create user_root rest
        (r.1, (toolset_root, msg) :: r.2)

/-- Outer loop of `ToolsetsLoader.load` (`loader.py` lines 48-62) over the
root listing, accumulating the per-user collections and all load errors. -/
def loadUsers (create : String → Except String ToolsetE) (root : String) :
    List ScanUser → List (String × List ToolsetE) × List (String × String)
  | [] => ([], [])
  | u :: rest =>
    if skipEntry u.name u.is_dir then loadUsers create root rest
    else
      let r1 := loadUserFolders create (pathJoin root u.name) u.toolsets
      let r2 := loadUsers create root rest
      ((u.name, r1.1) :: r2.1, r1.2 ++ r2.2)

/-- `ToolsetsLoader.load` (`loader.py` lines 42-62): empty catalog when the
root is not a directory, otherwise the walk of users and toolset folders.
The first component is `self._toolsets`, the second `self._load_errors`
(what `get_load_errors` returns). -/
def ToolsetsLoader.load (create : String → Except String ToolsetE) (root : String)
    (root_is_dir : Bool) (users : List ScanUser) :
    List (String × List ToolsetE) × List (String × String) :=
  if !root_is_dir then ([], []) else loadUsers create root users

/-! ## Query engine (`ToolsetsLoader.get_toolset_by`) -/

/-- A loaded toolset as the query engine sees it: its display name and the
metadata fields it reads (`meta.get("tags", [])`, `meta.get("description", "")`
with their defaults already applied). -/
structure ToolsetQ where
  name : String
  tags : List String
  description : String
deriving DecidableEq

/-- The in-memory catalog `self._toolsets`: users in insertion order, each
with their ordered toolsets. -/
abbrev Catalog := List (String × List ToolsetQ)

/-- `ToolsetsLoader.get_users`: the catalog's user names in order. -/
def get_users (cat : Catalog) : List String := cat.map (fun p => p.1)

/-- `self._toolsets.get(user_name, [])`. -/
def catGet (cat : Catalog) (user_name : String) : List ToolsetQ :=
  (((cat.find? (fun p => p.1 == user_name)).map (fun p => p.2))).getD []

/-- Python `repr` of a list of strings, as interpolated into the
no-such-user message. -/
def pyReprStrList (xs : List String) : String :=
  "[" ++ joinSep ", " (xs.map (fun s => "'" ++ s ++ "'")) ++ "]"

/-- Per-toolset loop body of `get_toolset_by` (`loader.py` lines 122-144),
with the three `continue` tests in source order: name substring, fuzzy tag
match, description substring. -/
def filterToolsets (normalized_name : String) (normalized_tags : List String)
    (normalized_description : String) : List ToolsetQ → List ToolsetQ
  | [] => []
  | ts :: rest =>
    if normalized_name != "" && !(subStr normalized_name (pyLower ts.name)) then
      filterToolsets normalized_name normalized_tags normalized_description rest
    else if !normalized_tags.isEmpty &&
        !(normalized_tags.all (fun req =>
          ((ts.tags.filter (fun t => pyStrip t != "")).map (fun t => pyLower (pyStrip t))).any
            (fun hv => subStr req hv))) then
      filterToolsets normalized_name normalized_tags normalized_description rest
    else if normalized_description != "" &&
        !(subStr normalized_description (pyLower ts.description)) then
      filterToolsets normalized_name normalized_tags normalized_description rest
    else
      ts :: filterToolsets normalized_name normalized_tags normalized_description rest

/-- `ToolsetsLoader.get_toolset_by(name, tags, description, user)` (`loader.py`
lines 89-146). `user = none` is the `ALL` sentinel. The type-validation
branch is enforced by the Lean types; the `KeyError` for an unknown user is
the `Except.error`. The Python set comprehension for `normalized_tags` only
feeds an `all(...)`, so it is modelled as the (possibly duplicated) list. -/
def get_toolset_by (cat : Catalog) (name : String) (tags : List String)
    (description : String) (user : Option String) : Except String (List ToolsetQ) :=
  let normalized_name := pyLower (pyStrip name)
  let normalized_description := pyLower (pyStrip description)
  let normalized_tags := (tags.filter (fun t => t != "" && pyStrip t != "")).map
    (fun t => pyLower (pyStrip t))
  let all_users := get_users cat
  match user with
  | none =>
    .ok (all_users.flatMap (fun user_name =>
      filterToolsets normalized_name normalized_tags normalized_description (catGet cat user_name)))
  | some u =>
    if all_users.contains u then
      .ok (filterToolsets normalized_name normalized_tags normalized_description (catGet cat u))
    else
      .error ("No such user '" ++ u ++ "'. Choose from: " ++ pyReprStrList all_users)

/-! ## Persistence writers (`toolsets/saver.py`)

The metadata sidecar text is produced exactly as
`json.dump({"description": ..., "tags": [...]}, file, indent=4)` renders it
(CPython defaults: `ensure_ascii=True`, separators `(",", ": ")`). -/

/-- Lower-case hexadecimal digit. -/
def hexDigit (n : Nat) : Char :=
  if n < 10 then Char.ofNat (48 + n) else Char.ofNat (87 + n)

/-- Four-digit lower-case hexadecimal rendering used by `\uXXXX` escapes. -/
def hex4 (n : Nat) : String :=
  ⟨[hexDigit (n / 4096 % 16), hexDigit (n / 256 % 16), hexDigit (n / 16 % 16), hexDigit (n % 16)]⟩

/-- CPython `json` escaping of one character (`ensure_ascii=True`). -/
def jsonEscapeChar (c : Char) : List Char :=
  if c = '"' then ['\\', '"']
  else if c = '\\' then ['\\', '\\']
  else if c = '\x08' then ['\\', 'b']
  else if c = '\x0c' then ['\\', 'f']
  else if c = '\n' then ['\\', 'n']
  else if c = '\r' then ['\\', 'r']
  else if c = '\t' then ['\\', 't']
  else if c.toNat < 32 || c.toNat > 126 then
    if c.toNat < 65536 then ("\\u" ++ hex4 c.toNat).data
    else
      let n := c.toNat - 65536
      ("\\u" ++ hex4 (55296 + n / 1024) ++ "\\u" ++ hex4 (56320 + n % 1024)).data
  else [c]

/-- A JSON string literal for `s`, double-quoted and escaped. -/
def jsonStrLit (s : String) : String :=
  "\"" ++ ⟨s.data.flatMap jsonEscapeChar⟩ ++ "\""

/-- The `"tags"` value as `json.dump(..., indent=4)` renders it at depth 1:
`[]` when empty, else one element per line at depth 2. -/
def jsonTagsBlock (tags : List String) : String :=
  if tags.isEmpty then "[]"
  else "[\n" ++ joinSep ",\n" (tags.map (fun t => "        " ++ jsonStrLit t)) ++ "\n    ]"

/-- The exact text `BaseToolsetSaver._write_meta` (`saver.py` lines 66-81)
writes into `data.json`: the two-key mapping pretty-printed with `indent=4`.
Note `json.dump` emits no trailing newline and `_write_meta` adds none. -/
def metaJsonText (description : String) (tags : List String) : String :=
  "\x7b\n    \"description\": " ++ jsonStrLit description ++
  ",\n    \"tags\": " ++ jsonTagsBlock tags ++ "\n\x7d"

/-- The filesystem as the savers see it: the set of existing directories and
the text files with their contents. -/
structure FS where
  dirs : List String
  files : List (String × String)
deriving DecidableEq

/-- `os.path.isdir`. -/
def FS.isDir (fs : FS) (p : String) : Bool := fs.dirs.contains p

/-- `os.makedirs`. -/
def FS.mkdir (fs : FS) (p : String) : FS := { fs with dirs := fs.dirs ++ [p] }

/-- `open(p, "w").write(content)`: create or overwrite. -/
def FS.setFile (fs : FS) (p content : String) : FS :=
  { fs with files := (fs.files.filter (fun f => !(f.1 == p))) ++ [(p, content)] }

/-- A filesystem mutation performed by a saver, in order. -/
inductive FsEvent where
  | mkdirEv (p : String)
  | writeFileEv (p content : String)
  | nodeCopyEv (p : String)
deriving DecidableEq

/-- The `tags` argument of `save`: `None`, a comma-separated string, or a
sequence of strings (list/tuple/set). -/
inductive TagsArg where
  | ofStr (s : String)
  | ofList (ts : List String)

/-- The tag normalization at the top of `BaseToolsetSaver.save` (`saver.py`
lines 48-56): `None` becomes `[]`; a string is split on commas, stripped and
cleared of empties; a sequence is stripped element-wise and cleared of
empties. The unreachable wrong-type branch is excluded by the Lean type. -/
def normalizeTags : Option TagsArg → List String
  | none => []
  | some (.ofStr s) =>
    ((splitComma s.data).map (fun cs => pyStrip ⟨cs⟩)).filter (fun t => t != "")
  | some (.ofList ts) => (ts.map pyStrip).filter (fun t => t != "")

/-- `BaseToolsetSaver._assemble_toolset_root` (`saver.py` lines 105-119). -/
def assembleToolsetRoot (toolsets_root user name : String) : String :=
  pathJoin (pathJoin toolsets_root user) name

/-- `BaseToolsetSaver.validate` (`saver.py` lines 84-103): reject an empty
name and a name whose toolset folder already exists for this user. The
`tags must be list[str]` branch is excluded by the Lean type of tags. -/
def BaseToolsetSaver.validate (fs : FS) (toolsets_root user name : String) :
    Except String Unit :=
  if name == "" then .error "Please enter a name."
  else if fs.isDir (assembleToolsetRoot toolsets_root user name) then
    .error ("The toolset '" ++ name ++ "' already exists in your account. Please choose another name")
  else .ok ()

/-- `ToolsetSaverNK.validate` (`saver.py` lines 141-160). The host is `none`
when `nuke` is absent, else `some has_selection`; only a present host with an
empty selection raises. -/
def ToolsetSaverNK.validate (fs : FS) (toolsets_root user name : String)
    (host : Option Bool) : Except String Unit :=
  match BaseToolsetSaver.validate fs toolsets_root user name with
  | .error e => .error e
  | .ok () =>
    match host with
    | some false => .error "Please select the nodes to export as a new toolset."
    | _ => .ok ()

/-- `ToolsetSaverPY.validate` (`saver.py` lines 183-198): additionally reject
a falsy payload (`None` or the empty string). -/
def ToolsetSaverPY.validate (fs : FS) (toolsets_root user name : String)
    (toolset_data : Option String) : Except String Unit :=
  match BaseToolsetSaver.validate fs toolsets_root user name with
  | .error e => .error e
  | .ok () =>
    if (toolset_data.getD "") == "" then .error "Please enter a script." else .ok ()

/-- Python `s.replace("\t", "    ")`. -/
def pyReplaceTabs (s : String) : String :=
  ⟨s.data.flatMap (fun c => if c = '\t' then [' ', ' ', ' ', ' '] else [c])⟩

/-- The shared body of `BaseToolsetSaver.save` after validation (`saver.py`
lines 59-62): create the folder if needed, then write `data.json`. Returns
the new filesystem and the events so far. -/
def saveCommon (fs : FS) (toolset_root description : String) (tags_list : List String) :
    FS × List FsEvent :=
  let stepDir :=
    if !(fs.isDir toolset_root) then (fs.mkdir toolset_root, [FsEvent.mkdirEv toolset_root])
    else (fs, ([] : List FsEvent))
  let meta_path := pathJoin toolset_root "data.json"
  let meta_text := metaJsonText description tags_list
  (stepDir.1.setFile meta_path meta_text, stepDir.2 ++ [.writeFileEv meta_path meta_text])

/-- `ToolsetSaverPY.save(name, description, tags, toolset_data)`: tag
normalization, validation, then directory creation, metadata write, and the
`toolset.py` payload write with tabs normalized (`saver.py` lines 47-63 and
201-228). Returns the outcome, the final filesystem, and the ordered events. -/
def ToolsetSaverPY.save (fs : FS) (toolsets_root user name description : String)
    (tags : Option TagsArg) (toolset_data : Option String) :
    Except String Unit × FS × List FsEvent :=
  let tags_list := normalizeTags tags
  match ToolsetSaverPY.validate fs toolsets_root user name toolset_data with
  | .error e => (.error e, fs, [])
  | .ok () =>
    let toolset_root := assembleToolsetRoot toolsets_root user name
    let step := saveCommon fs toolset_root description tags_list
    match toolset_data with
    | none =>
      -- unreachable: validate rejected a falsy payload; Python would raise
      -- AttributeError on `None.replace` here
      (.error "AttributeError: 'NoneType' object has no attribute 'replace'", step.1, step.2)
    | some txt =>
      let path := pathJoin toolset_root "toolset.py"
      let data := pyReplaceTabs txt
      (.ok (), step.1.setFile path data, step.2 ++ [.writeFileEv path data])

/-- `ToolsetSaverNK.save(name, description, tags, toolset_data)`: as the base
`save`, with `write_toolset_data` delegating to `nuke.nodeCopy` when the host
is present and silently skipping when it is absent (`saver.py` lines 47-63
and 163-173). `host_nk_text` is the serialization the host would write. -/
def ToolsetSaverNK.save (fs : FS) (toolsets_root user name description : String)
    (tags : Option TagsArg) (host : Option Bool) (host_nk_text : String) :
    Except String Unit × FS × List FsEvent :=
  let tags_list := normalizeTags tags
  match ToolsetSaverNK.validate fs toolsets_root user name host with
  | .error e => (.error e, fs, [])
  | .ok () =>
    let toolset_root := assembleToolsetRoot toolsets_root user name
    let step := saveCommon fs toolset_root description tags_list
    let path := pathJoin toolset_root "toolset.nk"
    match host with
    | some _ => (.ok (), step.1.setFile path host_nk_text, step.2 ++ [.nodeCopyEv path])
    | none => (.ok (), step.1, step.2)

/-! ## The query filter as the specification words it -/

/-- The per-toolset admission predicate as the specification states it:
name, tags and description conditions ANDed together, each a case-insensitive
substring test, the tags condition requiring every requested tag to be a
substring of at least one of the toolset's own (normalized) tags. Stated
separately from `filterToolsets` (the code's loop) so their agreement is a
theorem, not a definition. -/
def matchesQuery (normalized_name : String) (normalized_tags : List String)
    (normalized_description : String) (ts : ToolsetQ) : Bool :=
  (normalized_name == "" || subStr normalized_name (pyLower ts.name)) &&
  (normalized_tags.isEmpty ||
    normalized_tags.all (fun req =>
      ((ts.tags.filter (fun t => pyStrip t != "")).map (fun t => pyLower (pyStrip t))).any
        (fun hv => subStr req hv))) &&
  (normalized_description == "" || subStr normalized_description (pyLower ts.description))

/-! ## Helper lemmas -/

theorem objGet_objSet_self (o : MetaObj) (k : String) (v : MVal) :
    objGet (objSet o k v) k = some v := by
  induction o with
  | nil => simp [objGet, objSet]
  | cons kv rest ih =>
    by_cases h : kv.1 = k
    · simp [objSet, objGet, h]
    · simpa [objSet, objGet, h] using ih

theorem objGet_objSet_ne (o : MetaObj) (k k' : String) (v : MVal) (h : ¬ k = k') :
    objGet (objSet o k v) k' = objGet o k' := by
  induction o with
  | nil => simp [objGet, objSet, h]
  | cons kv rest ih =>
    by_cases hk : kv.1 = k
    · simp [objSet, objGet, hk, h]
    · by_cases hk' : kv.1 = k'
      · have hke : ¬ k' = k := fun e => h e.symm
        simp [objSet, objGet, hk, hk', hke]
      · simpa [objSet, objGet, hk, hk'] using ih

theorem cacheLookup_cachePop_self (k : String) (c : ModCache) :
    cacheLookup k (cachePop k c) = none := by
  induction c with
  | nil => rfl
  | cons kv rest ih =>
    by_cases h : kv.1 = k
    · simpa [cachePop, h] using ih
    · simpa [cachePop, cacheLookup, h] using ih

theorem cacheLookup_cachePop_ne (k k' : String) (c : ModCache) (h : ¬ k' = k) :
    cacheLookup k' (cachePop k c) = cacheLookup k' c := by
  induction c with
  | nil => rfl
  | cons kv rest ih =>
    by_cases hk : kv.1 = k
    · have hne : ¬ kv.1 = k' := fun e => h (e ▸ hk)
      have hke : ¬ k = k' := fun e => h e.symm
      simpa [cachePop, cacheLookup, hk, hne, hke] using ih
    · by_cases hk' : kv.1 = k'
      · simp [cachePop, cacheLookup, hk, hk', h]
      · simpa [cachePop, cacheLookup, hk, hk'] using ih

theorem cacheLookup_cacheSet_ne (k k' : String) (m : Nat) (c : ModCache) (h : ¬ k' = k) :
    cacheLookup k' (cacheSet k m c) = cacheLookup k' c := by
  induction c with
  | nil =>
    have : ¬ k = k' := fun e => h e.symm
    simp [cacheSet, cacheLookup, this]
  | cons kv rest ih =>
    by_cases hk : kv.1 = k
    · have h2 : ¬ k = k' := fun e => h e.symm
      have h3 : ¬ kv.1 = k' := fun e => h (e ▸ hk)
      simp [cacheSet, cacheLookup, hk, h2, h3]
    · by_cases hk' : kv.1 = k'
      · simp [cacheSet, cacheLookup, hk, hk', h]
      · simpa [cacheSet, cacheLookup, hk, hk'] using ih

theorem loadUserFolders_eq (create : String → Except String ToolsetE) (user_root : String)
    (es : List ScanEntry) :
    loadUserFolders create user_root es =
      ((es.filter (fun e => !skipEntry e.name e.is_dir)).filterMap (fun e =>
          match create (pathJoin user_root e.name) with
          | .ok t => some t
          | .error _ => none),
       (es.filter (fun e => !skipEntry e.name e.is_dir)).filterMap (fun e =>
          match create (pathJoin user_root e.name) with
          | .ok _ => none
          | .error m => some (pathJoin user_root e.name, m))) := by
  induction es with
  | nil => rfl
  | cons e rest ih =>
    by_cases h : skipEntry e.name e.is_dir
    · simp [loadUserFolders, h, List.filter_cons, ih]
    · cases hc : create (pathJoin user_root e.name) with
      | ok t => simp [loadUserFolders, h, List.filter_cons, List.filterMap_cons, hc, ih]
      | error m => simp [loadUserFolders, h, List.filter_cons, List.filterMap_cons, hc, ih]

theorem loadUsers_eq (create : String → Except String ToolsetE) (root : String)
    (us : List ScanUser) :
    loadUsers create root us =
      ((us.filter (fun u => !skipEntry u.name u.is_dir)).map (fun u =>
          (u.name, (loadUserFolders create (pathJoin root u.name) u.toolsets).1)),
       (us.filter (fun u => !skipEntry u.name u.is_dir)).flatMap (fun u =>
          (loadUserFolders create (pathJoin root u.name) u.toolsets).2)) := by
  induction us with
  | nil => rfl
  | cons u rest ih =>
    by_cases h : skipEntry u.name u.is_dir
    · simp [loadUsers, h, List.filter_cons, ih]
    · simp [loadUsers, h, List.filter_cons, ih]

theorem filterToolsets_eq_filter (nn : String) (nts : List String) (nd : String)
    (l : List ToolsetQ) :
    filterToolsets nn nts nd l = l.filter (matchesQuery nn nts nd) := by
  induction l with
  | nil => rfl
  | cons ts rest ih =>
    cases h1 : (nn != "" && !(subStr nn (pyLower ts.name))) with
    | true =>
      have hm : matchesQuery nn nts nd ts = false := by
        have hf : (nn == "" || subStr nn (pyLower ts.name)) = false := by
          cases hc : (nn == "") <;> cases hd : subStr nn (pyLower ts.name) <;>
            simp_all [bne]
        simp only [matchesQuery, hf, Bool.false_and]
      rw [List.filter_cons, hm]
      simp only [filterToolsets, h1, if_true]
      simp [ih]
    | false =>
      have h1' : (nn == "" || subStr nn (pyLower ts.name)) = true := by
        cases hc : (nn == "") <;> cases hd : subStr nn (pyLower ts.name) <;>
          simp_all [bne]
      cases h2 : (!nts.isEmpty &&
          !(nts.all (fun req =>
            ((ts.tags.filter (fun t => pyStrip t != "")).map (fun t => pyLower (pyStrip t))).any
              (fun hv => subStr req hv)))) with
      | true =>
        have hm : matchesQuery nn nts nd ts = false := by
          have hf : (nts.isEmpty ||
              nts.all (fun req =>
                ((ts.tags.filter (fun t => pyStrip t != "")).map
                  (fun t => pyLower (pyStrip t))).any (fun hv => subStr req hv))) = false := by
            cases hc : nts.isEmpty <;> simp_all
          simp only [matchesQuery, h1', hf, Bool.true_and, Bool.false_and]
        rw [List.filter_cons, hm]
        simp only [filterToolsets, h1, h2, if_true]
        simp [ih]
      | false =>
        have h2' : (nts.isEmpty ||
            nts.all (fun req =>
              ((ts.tags.filter (fun t => pyStrip t != "")).map
                (fun t => pyLower (pyStrip t))).any (fun hv => subStr req hv))) = true := by
          cases hc : nts.isEmpty <;> simp_all
        cases h3 : (nd != "" && !(subStr nd (pyLower ts.description))) with
        | true =>
          have hm : matchesQuery nn nts nd ts = false := by
            have hf : (nd == "" || subStr nd (pyLower ts.description)) = false := by
              cases hc : (nd == "") <;> cases hd : subStr nd (pyLower ts.description) <;>
                simp_all [bne]
            simp only [matchesQuery, h1', h2', hf, Bool.true_and, Bool.and_false]
          rw [List.filter_cons, hm]
          simp only [filterToolsets, h1, h2, h3, if_true]
          simp [ih]
        | false =>
          have h3' : (nd == "" || subStr nd (pyLower ts.description)) = true := by
            cases hc : (nd == "") <;> cases hd : subStr nd (pyLower ts.description) <;>
              simp_all [bne]
          have hm : matchesQuery nn nts nd ts = true := by
            simp only [matchesQuery, h1', h2', h3', Bool.true_and, Bool.and_true]
          rw [List.filter_cons, hm]
          simp only [filterToolsets, h1, h2, h3, if_true]
          simp [ih]

theorem char_eq_of_toNat_eq {a b : Char} (h : a.toNat = b.toNat) : a = b :=
  Char.eq_of_val_eq (UInt32.ext h)

theorem lexLe_total : ∀ as bs : List Char, lexLe as bs = true ∨ lexLe bs as = true
  | [], _ => Or.inl rfl
  | _ :: _, [] => Or.inr rfl
  | a :: as, b :: bs => by
    by_cases hab : a = b
    · subst hab
      simpa [lexLe] using lexLe_total as bs
    · have hba : ¬ b = a := fun e => hab e.symm
      have hne : a.toNat ≠ b.toNat := fun e => hab (char_eq_of_toNat_eq e)
      rcases Nat.lt_or_gt_of_ne hne with hlt | hgt
      · exact Or.inl (by simp [lexLe, hab, hlt])
      · exact Or.inr (by simp [lexLe, hba, hgt])

theorem lexLe_trans :
    ∀ as bs cs : List Char, lexLe as bs = true → lexLe bs cs = true → lexLe as cs = true
  | [], _, _, _, _ => rfl
  | a :: as, [], _, h1, _ => by simp [lexLe] at h1
  | _ :: _, _ :: _, [], _, h2 => by simp [lexLe] at h2
  | a :: as, b :: bs, c :: cs, h1, h2 => by
    by_cases hab : a = b
    · subst hab
      by_cases hac : a = c
      · subst hac
        simp only [lexLe, if_pos rfl] at h1 h2 ⊢
        exact lexLe_trans as bs cs h1 h2
      · simpa [lexLe, hac] using (by simpa [lexLe, hac] using h2 : decide (a.toNat < c.toNat) = true)
    · have h1' : a.toNat < b.toNat := by simpa [lexLe, hab] using h1
      by_cases hbc : b = c
      · rw [← hbc]
        simp [lexLe, hab, h1']
      · have h2' : b.toNat < c.toNat := by simpa [lexLe, hbc] using h2
        have hlt : a.toNat < c.toNat := Nat.lt_trans h1' h2'
        have hac : ¬ a = c := fun e => Nat.lt_irrefl _ (e ▸ hlt)
        simp [lexLe, hac, hlt]

theorem summaryLe_total (a b : String × Nat) : summaryLe a b = true ∨ summaryLe b a = true := by
  rcases Nat.lt_trichotomy a.2 b.2 with h | h | h
  · exact Or.inr (by simp [summaryLe, h])
  · rcases lexLe_total a.1.data b.1.data with hl | hl
    · exact Or.inl (by simp [summaryLe, h, hl])
    · exact Or.inr (by simp [summaryLe, h, hl])
  · exact Or.inl (by simp [summaryLe, h])

theorem summaryLe_trans (a b c : String × Nat)
    (h1 : summaryLe a b = true) (h2 : summaryLe b c = true) : summaryLe a c = true := by
  simp only [summaryLe, Bool.or_eq_true, Bool.and_eq_true, decide_eq_true_eq, beq_iff_eq]
    at h1 h2 ⊢
  rcases h1 with h1 | ⟨h1e, h1l⟩
  · rcases h2 with h2 | ⟨h2e, h2l⟩
    · exact Or.inl (Nat.lt_trans h2 h1)
    · exact Or.inl (h2e ▸ h1)
  · rcases h2 with h2 | ⟨h2e, h2l⟩
    · exact Or.inl (h1e ▸ h2)
    · exact Or.inr ⟨h1e.trans h2e, lexLe_trans _ _ _ h1l h2l⟩

theorem mem_insertSorted {le : α → α → Bool} (a x : α) (l : List α) :
    x ∈ insertSorted le a l ↔ x = a ∨ x ∈ l := by
  induction l with
  | nil => simp [insertSorted]
  | cons b t ih =>
    by_cases h : le a b = true
    · simp [insertSorted, h]
    · simp [insertSorted, h, ih]
      tauto

theorem insertSorted_pairwise {le : α → α → Bool}
    (htrans : ∀ a b c, le a b = true → le b c = true → le a c = true)
    (htotal : ∀ a b, le a b = true ∨ le b a = true)
    (a : α) (l : List α) (h : List.Pairwise (fun x y => le x y = true) l) :
    List.Pairwise (fun x y => le x y = true) (insertSorted le a l) := by
  induction l with
  | nil => simp [insertSorted]
  | cons b t ih =>
    rcases List.pairwise_cons.mp h with ⟨hb, ht⟩
    by_cases hab : le a b = true
    · simp only [insertSorted, hab, if_true]
      refine List.pairwise_cons.mpr ⟨?_, h⟩
      intro x hx
      rcases List.mem_cons.mp hx with hxb | hxt
      · exact hxb ▸ hab
      · exact htrans a b x hab (hb x hxt)
    · simp only [insertSorted, hab, if_false]
      refine List.pairwise_cons.mpr ⟨?_, ih ht⟩
      intro x hx
      rcases (mem_insertSorted a x t).mp hx with hxa | hxt
      · rw [hxa]
        rcases htotal a b with hc | hc
        · exact absurd hc hab
        · exact hc
      · exact hb x hxt

theorem insertSorted_perm {le : α → α → Bool} (a : α) (l : List α) :
    List.Perm (insertSorted le a l) (a :: l) := by
  induction l with
  | nil => simp [insertSorted]
  | cons b t ih =>
    by_cases h : le a b = true
    · simp [insertSorted, h]
    · simp only [insertSorted, h, if_false]
      exact ((ih.cons b).trans (List.Perm.swap a b t))

theorem sortByLe_perm {le : α → α → Bool} (l : List α) :
    List.Perm (sortByLe le l) l := by
  induction l with
  | nil => simp [sortByLe]
  | cons a t ih =>
    exact (insertSorted_perm a (sortByLe le t)).trans (ih.cons a)

theorem sortByLe_pairwise {le : α → α → Bool}
    (htrans : ∀ a b c, le a b = true → le b c = true → le a c = true)
    (htotal : ∀ a b, le a b = true ∨ le b a = true)
    (l : List α) :
    List.Pairwise (fun x y => le x y = true) (sortByLe le l) := by
  induction l with
  | nil => simp [sortByLe]
  | cons a t ih => exact insertSorted_pairwise htrans htotal a _ ih

theorem metaJsonText_getLast (description : String) (tags : List String) :
    (metaJsonText description tags).data.getLast? = some '\x7d' := by
  unfold metaJsonText
  rw [String.data_append]
  have h : ("\n\x7d").data = ['\n'] ++ ['\x7d'] := rfl
  rw [h, ← List.append_assoc]
  exact List.getLast?_concat _

theorem contains_of_hasFile (fd : Folder) (n : String) (h : fd.hasFile n = true) :
    (fd.files.map (fun f => f.1)).contains n = true := by
  have h' : ∃ x, (n, x) ∈ fd.files := by simpa [Folder.hasFile] using h
  rcases h' with ⟨x, hx⟩
  have hm : n ∈ fd.files.map (fun f => f.1) := List.mem_map.mpr ⟨(n, x), hx, rfl⟩
  simpa using hm

theorem create_both_eq (root : String) (entries : List String)
    (h1 : entries.contains "toolset.nk" = true) (h2 : entries.contains "toolset.py" = true) :
    ToolsetFactory.create root true entries = .ok (.invalid root multiPayloadMsg) := by
  simp only [ToolsetFactory.create, Bool.not_true, Bool.false_eq_true, if_false, h1, h2,
    Bool.and_self, eq_self_iff_true, if_true]

/-! ## Claim theorems -/

/-- Claim C1: during a scan, every eligible toolset folder for which
`ToolsetFactory.create` raises a hard exception contributes exactly a
`(folder path, message)` pair to the load-error list and is skipped, while
every folder whose classification succeeds contributes its entity — for any
behavior of `create`, so no single bad folder aborts the scan or affects the
other folders. -/
theorem scan_survives_bad_folders (create : String → Except String ToolsetE)
    (root : String) (users : List ScanUser) :
    ToolsetsLoader.load create root true users =
      ((users.filter (fun u => !skipEntry u.name u.is_dir)).map (fun u =>
        (u.name,
         (u.toolsets.filter (fun e => !skipEntry e.name e.is_dir)).filterMap (fun e =>
           match create (pathJoin (pathJoin root u.name) e.name) with
           | .ok t => some t
           | .error _ => none))),
       (users.filter (fun u => !skipEntry u.name u.is_dir)).flatMap (fun u =>
         (u.toolsets.filter (fun e => !skipEntry e.name e.is_dir)).filterMap (fun e =>
           match create (pathJoin (pathJoin root u.name) e.name) with
           | .ok _ => none
           | .error m => some (pathJoin (pathJoin root u.name) e.name, m)))) := by
  simp only [ToolsetsLoader.load, Bool.not_true, Bool.false_eq_true, if_false]
  rw [loadUsers_eq]
  simp only [loadUserFolders_eq]

/-- Claim C2: a toolset folder holding both `toolset.nk` and `toolset.py` is
classified Invalid with a message naming both candidate payload files, and is
never classified as a Graph or Script entity. -/
theorem create_both_payloads_invalid (root : String) (entries : List String)
    (h1 : entries.contains "toolset.nk" = true)
    (h2 : entries.contains "toolset.py" = true) :
    ToolsetFactory.create root true entries = .ok (.invalid root multiPayloadMsg) ∧
    subStr "toolset.nk" multiPayloadMsg = true ∧
    subStr "toolset.py" multiPayloadMsg = true ∧
    ∀ r, ToolsetFactory.create root true entries ≠ .ok (.nk r) ∧
         ToolsetFactory.create root true entries ≠ .ok (.py r) := by
  refine ⟨create_both_eq root entries h1 h2, by decide, by decide, fun r => ⟨?_, ?_⟩⟩
  · rw [create_both_eq root entries h1 h2]
    simp
  · rw [create_both_eq root entries h1 h2]
    simp

/-- Claim C2 witness: the theorem applied to a concrete folder listing that
contains both payload files. -/
theorem create_both_payloads_invalid_witness :
    ToolsetFactory.create "/r/alice/t" true ["data.json", "toolset.nk", "toolset.py"] =
      .ok (.invalid "/r/alice/t" multiPayloadMsg) ∧
    subStr "toolset.nk" multiPayloadMsg = true ∧
    subStr "toolset.py" multiPayloadMsg = true ∧
    ∀ r, ToolsetFactory.create "/r/alice/t" true ["data.json", "toolset.nk", "toolset.py"] ≠
           .ok (.nk r) ∧
         ToolsetFactory.create "/r/alice/t" true ["data.json", "toolset.nk", "toolset.py"] ≠
           .ok (.py r) :=
  create_both_payloads_invalid "/r/alice/t" ["data.json", "toolset.nk", "toolset.py"]
    (by decide) (by decide)

/-- Claim C3: a folder with no `data.json` loads metadata as the empty mapping
with the metadata-missing flag set and no error; and after
`update_meta(description, tags)`, `load_meta()` on the written file returns a
mapping whose `description` and `tags` entries are exactly the written values
(round-trip law), whatever the previous metadata state was. -/
theorem load_meta_missing_and_update_roundtrip :
    load_meta .missing = { meta := [], meta_missing := true, meta_load_error := none } ∧
    ∀ (st : MetaState) (description : String) (tags : List String),
      objGet (load_meta (update_meta st description tags).2).meta "description" =
        some (.str description) ∧
      objGet (load_meta (update_meta st description tags).2).meta "tags" =
        some (.strList tags) := by
  refine ⟨rfl, fun st d ts => ⟨?_, ?_⟩⟩
  · show objGet (objSet (objSet st.meta "description" (.str d)) "tags" (.strList ts))
      "description" = some (.str d)
    rw [objGet_objSet_ne _ _ _ _ (by decide)]
    exact objGet_objSet_self _ _ _
  · exact objGet_objSet_self _ _ _

/-- Claim C4: for both saver kinds, a failed validation makes `save` raise the
validation error while performing no filesystem mutation at all: the
filesystem is returned unchanged and the event trace is empty. -/
theorem save_validation_failure_keeps_fs (fs : FS)
    (toolsets_root user name description : String) (tags : Option TagsArg)
    (toolset_data : Option String) (host : Option Bool) (host_nk_text : String)
    (e e' : String) :
    (ToolsetSaverPY.validate fs toolsets_root user name toolset_data = .error e →
      ToolsetSaverPY.save fs toolsets_root user name description tags toolset_data =
        (.error e, fs, [])) ∧
    (ToolsetSaverNK.validate fs toolsets_root user name host = .error e' →
      ToolsetSaverNK.save fs toolsets_root user name description tags host host_nk_text =
        (.error e', fs, [])) := by
  constructor
  · intro h
    simp [ToolsetSaverPY.save, h]
  · intro h
    simp [ToolsetSaverNK.save, h]

/-- Claim C4 witness: concrete failing validations — an empty name for the
script saver and an empty host selection for the graph saver — leave the
concrete filesystem untouched. -/
theorem save_validation_failure_keeps_fs_witness :
    (ToolsetSaverPY.validate ⟨["/root"], []⟩ "/root" "alice" "" (some "x") =
       .error "Please enter a name.") ∧
    ToolsetSaverPY.save ⟨["/root"], []⟩ "/root" "alice" "" "" none (some "x") =
      (.error "Please enter a name.", ⟨["/root"], []⟩, []) ∧
    (ToolsetSaverNK.validate ⟨["/root"], []⟩ "/root" "alice" "t" (some false) =
       .error "Please select the nodes to export as a new toolset.") ∧
    ToolsetSaverNK.save ⟨["/root"], []⟩ "/root" "alice" "t" "" none (some false) "nk" =
      (.error "Please select the nodes to export as a new toolset.", ⟨["/root"], []⟩, []) :=
  ⟨by decide,
   (save_validation_failure_keeps_fs ⟨["/root"], []⟩ "/root" "alice" "" "" none (some "x")
      (some false) "nk" "Please enter a name."
      "Please select the nodes to export as a new toolset.").1 (by decide),
   by decide,
   (save_validation_failure_keeps_fs ⟨["/root"], []⟩ "/root" "alice" "t" "" none (some "x")
      (some false) "nk" "Please enter a name."
      "Please select the nodes to export as a new toolset.").2 (by decide)⟩

/-- Claim C5 counterexample: with the payload file present but the host
absent, `ToolsetNK.execute` returns successfully having done nothing — it
does not fail with a host-unavailable error, refuting the claim that it
never silently succeeds in that situation. -/
theorem executeNK_silent_noop_counterexample :
    ToolsetNK.execute false "/r/alice/t" ⟨[("toolset.nk", "Blur \x7b size 2 \x7d")]⟩ =
      .ok [] := by decide

/-- Claim C5 (amended): `ToolsetNK.execute` never raises at all: when the
host is absent it is a silent successful no-op performing no host calls, and
when the host is present it issues a single `nodePaste` on the resolved
payload path — which is the empty string when the payload has vanished —
producing neither a host-unavailable nor a payload-missing error itself. -/
theorem executeNK_never_raises (host : Bool) (root : String) (fd : Folder) :
    exceptIsOk (ToolsetNK.execute host root fd) = true ∧
    ToolsetNK.execute false root fd = .ok [] ∧
    ToolsetNK.execute true root fd = .ok [.nodePaste (toolset_file root fd)] ∧
    toolset_file root ⟨[]⟩ = "" := by
  refine ⟨?_, rfl, rfl, rfl⟩
  cases host <;> rfl

/-- Claim C6 counterexample: a concrete successful `save` whose `data.json`
content is written first but does NOT end with a newline — its last character
is the closing brace — refuting the trailing-newline part of the claim. -/
theorem save_meta_no_trailing_newline_counterexample :
    (ToolsetSaverPY.save ⟨["/root", "/root/alice"], []⟩ "/root" "alice" "t" "d" none
       (some "code")).1 = .ok () ∧
    (ToolsetSaverPY.save ⟨["/root", "/root/alice"], []⟩ "/root" "alice" "t" "d" none
       (some "code")).2.2 =
      [.mkdirEv "/root/alice/t",
       .writeFileEv "/root/alice/t/data.json" (metaJsonText "d" []),
       .writeFileEv "/root/alice/t/toolset.py" "code"] ∧
    (metaJsonText "d" []).data.getLast? = some '\x7d' ∧
    ¬ (metaJsonText "d" []).data.getLast? = some '\n' := by
  refine ⟨by decide, by decide, by decide, by decide⟩

/-- Claim C6 (amended): every successful `save` of either kind validates,
creates the folder, writes the metadata sidecar `data.json` (pretty-printed
`indent=4` JSON, with NO trailing newline) and only then writes the
kind-specific payload, so a mid-save failure can leave at most a
metadata-only folder, never a payload-only one. -/
theorem save_writes_meta_before_payload (fs : FS)
    (toolsets_root user name description : String) (tags : Option TagsArg)
    (txt host_nk_text : String)
    (hname : (name == "") = false)
    (hdir : fs.isDir (assembleToolsetRoot toolsets_root user name) = false)
    (htxt : (txt == "") = false) :
    ToolsetSaverPY.save fs toolsets_root user name description tags (some txt) =
      (.ok (),
       ((fs.mkdir (assembleToolsetRoot toolsets_root user name)).setFile
           (pathJoin (assembleToolsetRoot toolsets_root user name) "data.json")
           (metaJsonText description (normalizeTags tags))).setFile
         (pathJoin (assembleToolsetRoot toolsets_root user name) "toolset.py")
         (pyReplaceTabs txt),
       [.mkdirEv (assembleToolsetRoot toolsets_root user name),
        .writeFileEv (pathJoin (assembleToolsetRoot toolsets_root user name) "data.json")
          (metaJsonText description (normalizeTags tags)),
        .writeFileEv (pathJoin (assembleToolsetRoot toolsets_root user name) "toolset.py")
          (pyReplaceTabs txt)]) ∧
    (ToolsetSaverNK.save fs toolsets_root user name description tags (some true)
        host_nk_text).2.2 =
      [.mkdirEv (assembleToolsetRoot toolsets_root user name),
       .writeFileEv (pathJoin (assembleToolsetRoot toolsets_root user name) "data.json")
         (metaJsonText description (normalizeTags tags)),
       .nodeCopyEv (pathJoin (assembleToolsetRoot toolsets_root user name) "toolset.nk")] ∧
    (metaJsonText description (normalizeTags tags)).data.getLast? = some '\x7d' := by
  have hv : ToolsetSaverPY.validate fs toolsets_root user name (some txt) = .ok () := by
    simp [ToolsetSaverPY.validate, BaseToolsetSaver.validate, hname, hdir, htxt]
  have hvnk : ToolsetSaverNK.validate fs toolsets_root user name (some true) = .ok () := by
    simp [ToolsetSaverNK.validate, BaseToolsetSaver.validate, hname, hdir]
  refine ⟨?_, ?_, metaJsonText_getLast _ _⟩
  · simp [ToolsetSaverPY.save, hv, saveCommon, hdir]
  · simp [ToolsetSaverNK.save, hvnk, saveCommon, hdir]

/-- Claim C6 witness: the amended theorem applied to a concrete filesystem
and arguments, with all validation hypotheses discharged. -/
theorem save_writes_meta_before_payload_witness :
    ToolsetSaverPY.save ⟨["/root", "/root/alice"], []⟩ "/root" "alice" "t" "d" none
        (some "code") =
      (.ok (),
       ((FS.mkdir ⟨["/root", "/root/alice"], []⟩ (assembleToolsetRoot "/root" "alice" "t")).setFile
           (pathJoin (assembleToolsetRoot "/root" "alice" "t") "data.json")
           (metaJsonText "d" (normalizeTags none))).setFile
         (pathJoin (assembleToolsetRoot "/root" "alice" "t") "toolset.py")
         (pyReplaceTabs "code"),
       [.mkdirEv (assembleToolsetRoot "/root" "alice" "t"),
        .writeFileEv (pathJoin (assembleToolsetRoot "/root" "alice" "t") "data.json")
          (metaJsonText "d" (normalizeTags none)),
        .writeFileEv (pathJoin (assembleToolsetRoot "/root" "alice" "t") "toolset.py")
          (pyReplaceTabs "code")]) ∧
    (ToolsetSaverNK.save ⟨["/root", "/root/alice"], []⟩ "/root" "alice" "t" "d" none
        (some true) "nk").2.2 =
      [.mkdirEv (assembleToolsetRoot "/root" "alice" "t"),
       .writeFileEv (pathJoin (assembleToolsetRoot "/root" "alice" "t") "data.json")
         (metaJsonText "d" (normalizeTags none)),
       .nodeCopyEv (pathJoin (assembleToolsetRoot "/root" "alice" "t") "toolset.nk")] ∧
    (metaJsonText "d" (normalizeTags none)).data.getLast? = some '\x7d' :=
  save_writes_meta_before_payload ⟨["/root", "/root/alice"], []⟩ "/root" "alice" "t" "d" none
    "code" "nk" (by decide) (by decide) (by decide)

/-- Claim C7 counterexample: the `user` scope is not a case-insensitive
substring filter: for a catalog whose only user is `Alice`, the query with
`user="alice"` (a case-insensitive match, hence admitted under the claim's
reading) raises the no-such-user error instead of returning the toolset. -/
theorem get_toolset_by_user_filter_counterexample :
    get_toolset_by [("Alice", [⟨"t1", ["blur_heavy"], ""⟩])] "" [] "" (some "alice") =
      .error "No such user 'alice'. Choose from: ['Alice']" := by decide

/-- Claim C7 (amended): `get_toolset_by` applies the name, tags and
description filters as case-insensitive substring conditions ANDed together
(`matchesQuery`), the tags condition admitting a toolset iff every requested
tag is a substring of at least one of its own tags — in particular a toolset
tagged `blur_heavy` matches the query tag `blur` and is excluded by `sharp` —
while the `user` argument is an exact, case-sensitive scope selector: `ALL`
searches every user, and an unknown user name raises a KeyError. -/
theorem get_toolset_by_characterization (cat : Catalog) (name : String)
    (tags : List String) (description : String) (u : String) :
    get_toolset_by cat name tags description none =
      .ok ((get_users cat).flatMap (fun user_name =>
        (catGet cat user_name).filter
          (matchesQuery (pyLower (pyStrip name))
            ((tags.filter (fun t => t != "" && pyStrip t != "")).map
              (fun t => pyLower (pyStrip t)))
            (pyLower (pyStrip description))))) ∧
    get_toolset_by cat name tags description (some u) =
      (if (get_users cat).contains u then
        .ok ((catGet cat u).filter
          (matchesQuery (pyLower (pyStrip name))
            ((tags.filter (fun t => t != "" && pyStrip t != "")).map
              (fun t => pyLower (pyStrip t)))
            (pyLower (pyStrip description))))
      else
        .error ("No such user '" ++ u ++ "'. Choose from: " ++ pyReprStrList (get_users cat))) ∧
    matchesQuery "" ["blur"] "" ⟨"t1", ["blur_heavy"], ""⟩ = true ∧
    matchesQuery "" ["sharp"] "" ⟨"t1", ["blur_heavy"], ""⟩ = false := by
  refine ⟨?_, ?_, by decide, by decide⟩
  · simp only [get_toolset_by, filterToolsets_eq_filter]
  · by_cases h : (get_users cat).contains u = true
    · simp [get_toolset_by, filterToolsets_eq_filter, h]
    · simp [get_toolset_by, filterToolsets_eq_filter, h]

/-- Claim C8: `get_summary_text` parsing and reporting: on the payload lines
`Blur {`, `Blur {`, `Merge2 {` it counts 3 total nodes and 2 unique classes
and lists `Blur` (count 2) before `Merge2` (count 1), the rendered text block
carrying `3 nodes · 2 classes`; and in general the Top-Classes rows are the
per-class counts sorted by descending count then ascending class name
(a permutation of the class histogram), truncated to the top `top_n`. -/
theorem get_summary_histogram :
    (nkClasses ["Blur \x7b", "Blur \x7b", "Merge2 \x7b"] = ["Blur", "Blur", "Merge2"] ∧
     totalNodes ["Blur \x7b", "Blur \x7b", "Merge2 \x7b"] = 3 ∧
     uniqueClasses ["Blur \x7b", "Blur \x7b", "Merge2 \x7b"] = 2 ∧
     summaryItems ["Blur \x7b", "Blur \x7b", "Merge2 \x7b"] 10 = [("Blur", 2), ("Merge2", 1)] ∧
     subStr "3 nodes · 2 classes"
       (get_summary_text "demo" ["Blur \x7b", "Blur \x7b", "Merge2 \x7b"] 10) = true) ∧
    ∀ (lines : List String) (top_n : Nat),
      List.Pairwise (fun a b => summaryLe a b = true)
        (sortByLe summaryLe (counterItems (nkClasses lines))) ∧
      List.Perm (sortByLe summaryLe (counterItems (nkClasses lines)))
        (counterItems (nkClasses lines)) ∧
      summaryItems lines top_n =
        (sortByLe summaryLe (counterItems (nkClasses lines))).take top_n ∧
      (summaryItems lines top_n).length ≤ top_n := by
  refine ⟨⟨by decide, by decide, by decide, by decide, by decide⟩,
    fun lines top_n => ⟨?_, ?_, rfl, ?_⟩⟩
  · exact sortByLe_pairwise summaryLe_trans summaryLe_total _
  · exact sortByLe_perm _
  · exact List.length_take_le top_n (sortByLe summaryLe (counterItems (nkClasses lines)))

/-- Claim C9: with the spec built, every exit path of `ToolsetPY.execute` —
normal completion, missing/uncallable `execute` entry point, or an exception
from inside the script — leaves `sys.modules` without the uniquely-named
entry the call installed, and leaves every other key of the cache exactly as
it was before the call. -/
theorem executePY_cache_eviction (name module_path : String) (outcome : ScriptOutcome)
    (module : Nat) (modules : ModCache) :
    cacheLookup (uniqueModuleName name)
      (ToolsetPY.execute name module_path true outcome module modules).2 = none ∧
    ∀ k, ¬ k = uniqueModuleName name →
      cacheLookup k (ToolsetPY.execute name module_path true outcome module modules).2 =
        cacheLookup k modules := by
  have h2 : (ToolsetPY.execute name module_path true outcome module modules).2 =
      cachePop (uniqueModuleName name) (cacheSet (uniqueModuleName name) module modules) := by
    cases outcome <;> rfl
  refine ⟨?_, fun k hk => ?_⟩
  · rw [h2]
    exact cacheLookup_cachePop_self _ _
  · rw [h2, cacheLookup_cachePop_ne _ _ _ hk, cacheLookup_cacheSet_ne _ _ _ _ hk]

/-- Claim C9 witness: a concrete run (a script raising inside its entry
point, with a stale registration of the same unique name already present)
ends with the unique entry evicted and an unrelated cache entry untouched. -/
theorem executePY_cache_eviction_witness :
    cacheLookup (uniqueModuleName "My Tool")
      (ToolsetPY.execute "My Tool" "/p/toolset.py" true (.raisesInside "ValueError: boom") 7
        [("numpy", 1), (uniqueModuleName "My Tool", 9)]).2 = none ∧
    cacheLookup "numpy"
      (ToolsetPY.execute "My Tool" "/p/toolset.py" true (.raisesInside "ValueError: boom") 7
        [("numpy", 1), (uniqueModuleName "My Tool", 9)]).2 =
      cacheLookup "numpy" [("numpy", 1), (uniqueModuleName "My Tool", 9)] :=
  ⟨(executePY_cache_eviction "My Tool" "/p/toolset.py" (.raisesInside "ValueError: boom") 7
      [("numpy", 1), (uniqueModuleName "My Tool", 9)]).1,
   (executePY_cache_eviction "My Tool" "/p/toolset.py" (.raisesInside "ValueError: boom") 7
      [("numpy", 1), (uniqueModuleName "My Tool", 9)]).2 "numpy" (by decide)⟩

/-- Claim C10: in a folder containing both payload files, `toolset_file`
resolves to the `toolset.nk` path (the `.nk` file is silently preferred),
`get_source` therefore previews the `.nk` contents, even though the factory
classifies such a folder Invalid. -/
theorem toolset_file_prefers_nk (root : String) (fd : Folder)
    (h1 : fd.hasFile "toolset.nk" = true) (h2 : fd.hasFile "toolset.py" = true) :
    toolset_file root fd = pathJoin root "toolset.nk" ∧
    get_source fd = fd.fileText "toolset.nk" ∧
    ToolsetFactory.create root true (fd.files.map (fun f => f.1)) =
      .ok (.invalid root multiPayloadMsg) := by
  refine ⟨?_, ?_,
    create_both_eq root _ (contains_of_hasFile fd _ h1) (contains_of_hasFile fd _ h2)⟩
  · simp [toolset_file, toolsetFileName, h1]
  · simp [get_source, toolsetFileName, h1]

/-- Claim C10 witness: the theorem applied to a concrete folder holding both
payload files with distinct contents. -/
theorem toolset_file_prefers_nk_witness :
    toolset_file "/r/alice/t" ⟨[("toolset.nk", "GRAPH"), ("toolset.py", "SCRIPT")]⟩ =
      pathJoin "/r/alice/t" "toolset.nk" ∧
    get_source ⟨[("toolset.nk", "GRAPH"), ("toolset.py", "SCRIPT")]⟩ =
      Folder.fileText ⟨[("toolset.nk", "GRAPH"), ("toolset.py", "SCRIPT")]⟩ "toolset.nk" ∧
    ToolsetFactory.create "/r/alice/t" true
        ((Folder.files ⟨[("toolset.nk", "GRAPH"), ("toolset.py", "SCRIPT")]⟩).map
          (fun f => f.1)) =
      .ok (.invalid "/r/alice/t" multiPayloadMsg) :=
  toolset_file_prefers_nk "/r/alice/t" ⟨[("toolset.nk", "GRAPH"), ("toolset.py", "SCRIPT")]⟩
    (by decide) (by decide)

end NukeToolsets
